import Mathlib

/-!
Verification of the temp-identity-gen repository (src/generator.py,
src/identity_generator.py, src/utils.py) against its natural-language
specification.

Modelling conventions:
* Python's `secrets` random draws are modelled by an oracle `o : Nat → Nat`;
  each call site consumes a distinct oracle index, and `secrets.choice(l)`
  becomes `choice l (o i)` = the element at index `o i % l.length`
  (`secrets.randbelow(n)` becomes `o i % n`).  Quantifying theorems over the
  oracle quantifies over every possible sequence of random draws.
* Network interactions (Mail.tm) are modelled by oracles describing the
  outcome of each attempt.
* Python dicts (insertion-ordered) are modelled as association lists.
-/

namespace TempIdentity

/-- Model of secrets.choice applied to a string list: the oracle value k picks
index k % length.  Python raises IndexError on an empty list; the model
returns "" there, and theorems that need it assume nonemptiness. -/
def choice (l : List String) (k : Nat) : String := l.getD (k % l.length) ""

/-- Model of secrets.randbelow n: the oracle value k reduced mod n. -/
def randbelow (n : Nat) (k : Nat) : Nat := k % n

/-- Model of Python str.lower for the ASCII names used here. -/
def str_lower (s : String) : String := String.mk (s.toList.map Char.toLower)

/-! Built-in fallback tables, verbatim from TemporaryIdentityGenerator.__init__
(src/generator.py lines 25-35). -/

def state_maps : List (String × List String) :=
  [("US", ["CA", "NY", "TX"]), ("in", ["MH", "DL", "KA"])]

def default_first_names : List (String × List String) :=
  [("male", ["John", "Michael"]), ("female", ["Mary", "Sarah"]),
   ("neutral", ["Alex", "Taylor"])]

def default_last_names : List (String × List String) :=
  [("US", ["Smith", "Johnson"])]

def default_domains : List String := ["example.com", "test.org"]

def default_streets : List (String × List String) :=
  [("US", ["Main St", "Elm St"]), ("in", ["MG Road", "Park Ave"])]

def default_addresses : List (String × List String) :=
  [("CA", ["San Francisco", "Los Angeles"]), ("NY", ["New York", "Albany"]),
   ("MH", ["Mumbai", "Pune"])]

def default_phone_formats : List (String × String) :=
  [("US", "+1-###-###-####"), ("in", "+91-#####-#####")]

/-! generate_email (src/generator.py lines 91-95).  Oracle indices: 0 the
domain choice, 1 the randbelow(1000) draw. -/

def generate_email (domains : List String) (o : Nat → Nat)
    (first_name last_name : String) : String :=
  let domain := choice domains (o 0)
  let username :=
    str_lower first_name ++ "." ++ str_lower last_name ++ toString (randbelow 1000 (o 1))
  username ++ "@" ++ domain

/-! generate_address (src/generator.py lines 142-153), with the streets and
addresses tables fixed to the built-in defaults.  Oracle indices: 0 state,
1 street, 2 city, 3 house number. -/

structure Address where
  street : String
  city : String
  state : String
  country : String
deriving Repr, DecidableEq

/-- The country normalisation at the head of generate_address:
country if country in self.state_maps else the default country US. -/
def resolved_country (country : String) : String :=
  if (List.lookup country state_maps).isSome then country else "US"

/-- The list the state is drawn from:
self.state_maps.get(country, self.state_maps["US"]) after normalisation. -/
def address_state_list (country : String) : List String :=
  (List.lookup (resolved_country country) state_maps).getD
    ((List.lookup "US" state_maps).getD [])

/-- The list the street is drawn from:
self.streets.get(country, self.streets["US"]) after normalisation, with the
streets table fixed to the built-in default. -/
def address_street_list (country : String) : List String :=
  (List.lookup (resolved_country country) default_streets).getD
    ((List.lookup "US" default_streets).getD [])

/-- The list the city is drawn from:
self.addresses.get(state, self.addresses["CA"]), with the addresses table
fixed to the built-in default. -/
def address_city_list (state : String) : List String :=
  (List.lookup state default_addresses).getD
    ((List.lookup "CA" default_addresses).getD [])

def generate_address (o : Nat → Nat) (country : String) : Address :=
  let state := choice (address_state_list country) (o 0)
  let street := choice (address_street_list country) (o 1)
  let city := choice (address_city_list state) (o 2)
  { street := toString (randbelow 1000 (o 3)) ++ " " ++ street
    city := city
    state := state
    country := resolved_country country }

/-! generate_birthdate (src/generator.py lines 161-169).  The source returns a
formatted string; the model returns the (year, month, day) triple that the
string is formatted from.  Oracle indices: 0 year, 1 month, 2 day. -/

def generate_birthdate (current_year : Int) (min_age max_age : Int)
    (o : Nat → Nat) : Int × Nat × Nat :=
  let startYear := current_year - max_age
  let endYear := current_year - min_age
  let year := startYear + (randbelow (endYear - startYear + 1).toNat (o 0) : Int)
  let month := randbelow 12 (o 1) + 1
  let day := randbelow 28 (o 2) + 1
  (year, month, day)

/-! generate_temp_email (src/generator.py lines 97-134).  One loop iteration
performs three HTTPS requests (list domains, create account, obtain token);
its observable outcome is modelled by a `MailAttempt` oracle indexed by the
attempt number.  `ok email token` is the path reaching the final `return`
(token is `response.json().get("token")`, which may be absent, hence Option);
`noDomains` is the `if not domains: break` path; `netFail` is a
requests.RequestException raised by any of the three calls. -/

inductive MailAttempt where
  | ok (email : String) (token : Option String)
  | noDomains
  | netFail
deriving Repr, DecidableEq

/-- Observable result of one run of generate_temp_email: the returned pair,
the sleeps performed (in seconds, in order), and the number of loop
iterations that were started. -/
structure TempEmailRun where
  email : Option String
  token : Option String
  sleeps : List Nat
  attempts : Nat
deriving Repr, DecidableEq

/-- The `for attempt in range(retries)` loop of generate_temp_email, with
`fuel` the number of remaining iterations and `attempt` the current index.
On netFail with `attempt < retries - 1` the code sleeps 2^attempt and
continues; otherwise the loop falls through to the sentinel return. -/
def temp_email_loop (oracle : Nat → MailAttempt) (retries : Nat) :
    Nat → Nat → TempEmailRun
  | 0, _ => ⟨none, none, [], 0⟩
  | fuel + 1, attempt =>
    match oracle attempt with
    | .ok e t => ⟨some e, t, [], 1⟩
    | .noDomains => ⟨none, none, [], 1⟩
    | .netFail =>
      if attempt < retries - 1 then
        let r := temp_email_loop oracle retries fuel (attempt + 1)
        ⟨r.email, r.token, 2 ^ attempt :: r.sleeps, r.attempts + 1⟩
      else ⟨none, none, [], 1⟩

def generate_temp_email (oracle : Nat → MailAttempt) : TempEmailRun :=
  temp_email_loop oracle 3 3 0

/-- Python truthiness of an optional string: None and "" are falsy. -/
def strTruthy : Option String → Bool
  | none => false
  | some s => s != ""

/-- The email-selection logic of generate_identity (src/generator.py lines
182-192): a manual email wins; otherwise with use_temp_email set the Mail.tm
result is used unless its email is falsy (None), in which case the generated
firstname.lastname email is the fallback and the token is dropped. -/
def identity_email (manual_email : Option String) (use_temp_email : Bool)
    (tempOracle : Nat → MailAttempt) (domains : List String) (o : Nat → Nat)
    (first_name last_name : String) : String × Option String :=
  if strTruthy manual_email then (manual_email.getD "", none)
  else if use_temp_email then
    let r := generate_temp_email tempOracle
    match r.email with
    | some e =>
      if e = "" then (generate_email domains o first_name last_name, none)
      else (e, r.token)
    | none => (generate_email domains o first_name last_name, none)
  else (generate_email domains o first_name last_name, none)

/-! check_inbox (src/generator.py lines 210-236) with the default patterns
code_pattern = a six-digit number delimited by word boundaries and
link_pattern = an http(s) URL up to the next whitespace.  The two regexes are
implemented directly below as leftmost-match searches over the body text
(re module semantics for these two concrete patterns, ASCII digits). -/

def isWordChar (c : Char) : Bool := c.isAlphanum || c == '_'

/-- Right word-boundary test after the six digits: end of string or a
non-word character. -/
def boundaryAfter : List Char → Bool
  | [] => true
  | c :: _ => !isWordChar c

/-- Leftmost match of the default code pattern, scanning positions left to
right; `prev` is the character before the current position (none at the
start), used for the left word boundary. -/
def code_search_from : Option Char → List Char → Option String
  | _, [] => none
  | prev, c :: rest =>
    let cs := c :: rest
    let six := cs.take 6
    let okLeft := match prev with
      | none => true
      | some p => !isWordChar p
    if okLeft && six.length == 6 && six.all Char.isDigit && boundaryAfter (cs.drop 6)
    then some (String.mk six)
    else code_search_from (some c) rest

def code_search (body : String) : Option String :=
  code_search_from none body.toList

/-- Attempt to match the default link pattern at the current position:
"http", an optional "s", "://", then a maximal nonempty run of
non-whitespace characters. -/
def link_match_at (cs : List Char) : Option String :=
  let grab : List Char → Option String := fun tail =>
    let run := tail.takeWhile (fun c => !c.isWhitespace)
    if run.isEmpty then none else some (String.mk run)
  match cs with
  | 'h' :: 't' :: 't' :: 'p' :: 's' :: ':' :: '/' :: '/' :: tail =>
    (grab tail).map (fun r => "https://" ++ r)
  | 'h' :: 't' :: 't' :: 'p' :: ':' :: '/' :: '/' :: tail =>
    (grab tail).map (fun r => "http://" ++ r)
  | _ => none

/-- Leftmost match of the default link pattern. -/
def link_search_from : List Char → Option String
  | [] => none
  | c :: rest =>
    match link_match_at (c :: rest) with
    | some m => some m
    | none => link_search_from rest

def link_search (body : String) : Option String :=
  link_search_from body.toList

/-- The inner message loop of check_inbox: bodies are examined in list order;
each body is searched with the code pattern first, then the link pattern;
the first match wins.  `none` means no message of this attempt matched. -/
def scan_messages : List String → Option (Option String × Option String)
  | [] => none
  | body :: rest =>
    match code_search body with
    | some c => some (some c, none)
    | none =>
      match link_search body with
      | some l => some (none, some l)
      | none => scan_messages rest

/-- One poll attempt as seen by check_inbox: `none` models a
requests.RequestException (the attempt yields nothing and polling goes on);
`some bodies` is the list of message bodies fetched, in list order. -/
def check_inbox_loop (trace : Nat → Option (List String)) :
    Nat → Nat → Option String × Option String
  | 0, _ => (none, none)
  | fuel + 1, attempt =>
    match trace attempt with
    | none => check_inbox_loop trace fuel (attempt + 1)
    | some msgs =>
      match scan_messages msgs with
      | some r => r
      | none => check_inbox_loop trace fuel (attempt + 1)

/-- check_inbox with the default patterns: poll_attempts attempts, returning
the first match, or (None, None) when every attempt finds nothing. -/
def check_inbox (trace : Nat → Option (List String)) (poll_attempts : Nat) :
    Option String × Option String :=
  check_inbox_loop trace poll_attempts 0

/-! save_identity, CSV branch (src/generator.py lines 258-274).  An identity
is an insertion-ordered dict whose values are strings or a nested dict of
strings (the address); modelled as association lists. -/

inductive FieldValue where
  | s (v : String)
  | d (entries : List (String × String))
deriving Repr, DecidableEq

/-- An identity record as built by generate_identity: key/value pairs in
insertion order. -/
abbrev Identity := List (String × FieldValue)

/-- The flattening loop of the CSV branch: a dict-valued field contributes
one `key_subkey` column per entry, in order; plain fields pass through. -/
def flatten_identity (identity : Identity) : List (String × String) :=
  identity.flatMap fun kv =>
    match kv.2 with
    | .s v => [(kv.1, v)]
    | .d entries => entries.map fun e => (kv.1 ++ "_" ++ e.1, e.2)

/-- The header written by csv.DictWriter: fieldnames = flat_identities[0].keys().
Python raises IndexError on an empty batch (`flat_identities[0]`); the model
returns none there. -/
def save_identity_csv_header (identities : List Identity) : Option (List String) :=
  match identities.map flatten_identity with
  | [] => none
  | first :: _ => some (first.map Prod.fst)

/-- The batch loop of generate_batch_identities (src/generator.py lines
315-329): count records, each produced by generate_identity (modelled by the
oracle mk, index = iteration). -/
def generate_batch (count : Nat) (mk : Nat → Identity) : List Identity :=
  (List.range count).map mk

/-! The `generate` command handler of the interactive shell
(src/identity_generator.py lines 35-104).  Its parsed arguments and the
validation sequence of lines 57-71, in source order.  A `rejected` outcome
prints the one-line diagnostic and `continue`s the loop: no identity is
generated and no file is written (generate_batch_identities, which performs
both, is only called on `proceed`). -/

structure GenArgs where
  save : Bool
  saveLog : Bool
  country : String
  gender : String
  format : String
  count : Int
  fields : Option (List String)
  noPreview : Bool
  minAge : Int
  maxAge : Int
  useTempEmail : Bool
  manualEmail : Option String
  encrypt : Option String
deriving Repr, DecidableEq

inductive GenOutcome where
  | rejected (msg : String)
  | proceed (fields : Option (List String))
deriving Repr, DecidableEq

/-- The valid field names list of src/identity_generator.py lines 36-38. -/
def all_valid_fields : List String :=
  ["first_name", "last_name", "full_name", "email", "phone", "address",
   "username", "birthdate", "password", "created", "email_token",
   "address_street", "address_city", "address_state", "address_country"]

/-- Python truthiness of the optional fields list: None and [] are falsy. -/
def fieldsTruthy : Option (List String) → Bool
  | none => false
  | some l => !l.isEmpty

def validate_generate (a : GenArgs) : GenOutcome :=
  if a.count < 1 then
    .rejected "Error: Count must be positive"
  else if a.minAge < 0 ∨ a.maxAge < a.minAge ∨ a.maxAge > 120 then
    .rejected "Error: Invalid age range (min_age >=0, min_age <= max_age <=120)"
  else if a.useTempEmail = true ∧ strTruthy a.manualEmail = true then
    .rejected "Error: Cannot use both --use-temp-email and --manual-email"
  else if strTruthy a.encrypt = true ∧ a.format = "csv" then
    .rejected "Error: Encryption is not supported for CSV format"
  else if fieldsTruthy a.fields = true
      ∧ ¬(a.fields.getD []).all (fun f => all_valid_fields.contains f) = true then
    .proceed none
  else
    .proceed a.fields

/-! Configuration loading (TemporaryIdentityGenerator.__init__,
src/generator.py lines 37-75).  The six json files are read sequentially
inside a single try block; FileNotFoundError and json.JSONDecodeError are
caught after the whole block.  Each shape check only prints/logs a warning:
the assignment of the json.load result to the table attribute has already
happened and is not undone.  JSON values are modelled by the subset needed
here. -/

inductive JVal where
  | jstr (s : String)
  | jlist (l : List JVal)
  | jdict (d : List (String × JVal))

/-- What a config file on disk looks like to the loader. -/
inductive FileResult where
  | missing
  | badJson
  | content (v : JVal)

/-- Naive substring test, modelling Python's `key in str`. -/
def substr_at (pat cs : List Char) : Bool :=
  (cs.take pat.length) == pat

def substr_search : List Char → List Char → Bool
  | pat, [] => pat.isEmpty
  | pat, c :: rest => substr_at pat (c :: rest) || substr_search pat rest

/-- Python `key in value` for the modelled JSON values: dict key membership,
list element membership, substring for strings. -/
def jContains (v : JVal) (key : String) : Bool :=
  match v with
  | .jdict d => d.any (fun kv => kv.1 == key)
  | .jlist l => l.any fun x =>
      match x with
      | .jstr s => s == key
      | _ => false
  | .jstr s => substr_search key.toList s.toList

def jIsDict : JVal → Bool
  | .jdict _ => true
  | _ => false

def jIsList : JVal → Bool
  | .jlist _ => true
  | _ => false

/-- isinstance(v, dict) and all values are lists. -/
def jIsDictOfLists : JVal → Bool
  | .jdict d => d.all fun kv => jIsList kv.2
  | _ => false

/-- isinstance(v, dict) and all values are strings. -/
def jIsDictOfStrs : JVal → Bool
  | .jdict d => d.all fun kv =>
      match kv.2 with
      | .jstr _ => true
      | _ => false
  | _ => false

/-- The shape check for first_names.json:
all(key in loaded for key in ["male", "female", "neutral"]). -/
def firstNamesValid (v : JVal) : Bool :=
  ["male", "female", "neutral"].all (jContains v)

structure ConfigFiles where
  first_names : FileResult
  last_names : FileResult
  domains : FileResult
  streets : FileResult
  addresses : FileResult
  phone_formats : FileResult

/-- The six tables held by the generator after __init__ (as JSON values for
uniformity: defaults and loaded files alike). -/
structure Tables where
  first_names : JVal
  last_names : JVal
  domains : JVal
  streets : JVal
  addresses : JVal
  phone_formats : JVal

def jstrs (l : List String) : JVal := .jlist (l.map .jstr)

/-- The fallback defaults of src/generator.py lines 30-35, as JSON values. -/
def defaultTables : Tables where
  first_names := .jdict ((default_first_names).map fun kv => (kv.1, jstrs kv.2))
  last_names := .jdict ((default_last_names).map fun kv => (kv.1, jstrs kv.2))
  domains := jstrs default_domains
  streets := .jdict ((default_streets).map fun kv => (kv.1, jstrs kv.2))
  addresses := .jdict ((default_addresses).map fun kv => (kv.1, jstrs kv.2))
  phone_formats := .jdict ((default_phone_formats).map fun kv => (kv.1, .jstr kv.2))

/-- One `with open(...)` / json.load / shape-check step.  missing and badJson
abort the enclosing try block with the corresponding warning; a loaded value
is kept whether or not the shape check passes (a failed check only adds a
warning). -/
def load_step (fr : FileResult) (name : String) (valid : JVal → Bool)
    (failMsg : String) : Except String (JVal × List String) :=
  match fr with
  | .missing =>
    .error ("Warning: Configuration file " ++ name ++ " not found, using fallbacks.")
  | .badJson =>
    .error ("Warning: Configuration file " ++ name ++ " is invalid JSON, using fallbacks.")
  | .content v => .ok (v, if valid v then [] else [failMsg])

/-- The whole __init__ loading sequence: tables start at the defaults; each
step overwrites one table in order; the first missing/invalid-JSON file ends
the block, leaving every earlier table as loaded and every later table at
its default.  Returns the tables in use and the warnings printed. -/
def init_tables (fs : ConfigFiles) : Tables × List String :=
  let t0 := defaultTables
  match load_step fs.first_names "first_names.json" firstNamesValid
      "Warning: first_names.json missing required keys, using fallbacks." with
  | .error w => (t0, [w])
  | .ok (v1, w1) =>
    let t1 := { t0 with first_names := v1 }
    match load_step fs.last_names "last_names.json" jIsDictOfLists
        "Warning: last_names.json has invalid format, using fallbacks." with
    | .error w => (t1, w1 ++ [w])
    | .ok (v2, w2) =>
      let t2 := { t1 with last_names := v2 }
      match load_step fs.domains "domains.json" jIsList
          "Warning: domains.json has invalid format, using fallbacks." with
      | .error w => (t2, w1 ++ w2 ++ [w])
      | .ok (v3, w3) =>
        let t3 := { t2 with domains := v3 }
        match load_step fs.streets "streets.json" jIsDictOfLists
            "Warning: streets.json has invalid format, using fallbacks." with
        | .error w => (t3, w1 ++ w2 ++ w3 ++ [w])
        | .ok (v4, w4) =>
          let t4 := { t3 with streets := v4 }
          match load_step fs.addresses "addresses.json" jIsDictOfLists
              "Warning: addresses.json has invalid format, using fallbacks." with
          | .error w => (t4, w1 ++ w2 ++ w3 ++ w4 ++ [w])
          | .ok (v5, w5) =>
            let t5 := { t4 with addresses := v5 }
            match load_step fs.phone_formats "phone_formats.json" jIsDictOfStrs
                "Warning: phone_formats.json has invalid format, using fallbacks." with
            | .error w => (t5, w1 ++ w2 ++ w3 ++ w4 ++ w5 ++ [w])
            | .ok (v6, w6) =>
              ({ t5 with phone_formats := v6 }, w1 ++ w2 ++ w3 ++ w4 ++ w5 ++ w6)

/-! The encryption path of save_identity (src/generator.py lines 276-284).
Byte strings are lists of Nat byte values. -/

/-- Model of str.encode(): the UTF-8 bytes of a string. -/
def strBytes (s : String) : List Nat := s.toUTF8.toList.map (fun b => b.toNat)

/-- Bytewise xor of two byte strings (truncating to the shorter). -/
def xorBytes (a b : List Nat) : List Nat := List.zipWith (fun x y => x ^^^ y) a b

/-- Big-endian 4-byte encoding of a block index (INT(i) of PBKDF2). -/
def int32be (i : Nat) : List Nat :=
  [i / 2 ^ 24 % 256, i / 2 ^ 16 % 256, i / 2 ^ 8 % 256, i % 256]

def b64url_alphabet : List Char :=
  "ABCDEFGHIJKLMNOPQRSTUVWXYZabcdefghijklmnopqrstuvwxyz0123456789-_".toList

def b64char (n : Nat) : Nat := (b64url_alphabet.getD n 'A').toNat

/-- Model of base64.urlsafe_b64encode on a byte string ('=' is byte 61). -/
def base64url : List Nat → List Nat
  | [] => []
  | [a] => [b64char (a / 4), b64char (a % 4 * 16), 61, 61]
  | [a, b] => [b64char (a / 4), b64char (a % 4 * 16 + b / 16), b64char (b % 16 * 4), 61]
  | a :: b :: c :: rest =>
    b64char (a / 4) :: b64char (a % 4 * 16 + b / 16) :: b64char (b % 16 * 4 + c / 64)
      :: b64char (c % 64) :: base64url rest

/-- Modelled from the spec: the U-chain of PBKDF2 (the external cryptography
library's PBKDF2HMAC, absent from src/): U_next = PRF(password, U), folding
each U into the accumulator by xor, for the given number of remaining
iterations.  The HMAC-SHA256 primitive is the parameter prf. -/
def pbkdf2_iterate (prf : List Nat → List Nat → List Nat) (password : List Nat) :
    List Nat → List Nat → Nat → List Nat
  | _, acc, 0 => acc
  | u, acc, n + 1 =>
    let u2 := prf password u
    pbkdf2_iterate prf password u2 (xorBytes acc u2) n

/-- Modelled from the spec: PBKDF2 block i: U1 = PRF(password, salt ++ INT(i)),
then iterations - 1 further U's, all xored together. -/
def pbkdf2_block (prf : List Nat → List Nat → List Nat)
    (password salt : List Nat) (iterations blockIndex : Nat) : List Nat :=
  let u1 := prf password (salt ++ int32be blockIndex)
  pbkdf2_iterate prf password u1 u1 (iterations - 1)

/-- Modelled from the spec: PBKDF2-HMAC-SHA256 with dkLen = 32 = hLen, so the
derived key is the single first block truncated to dkLen bytes. -/
def pbkdf2_hmac (prf : List Nat → List Nat → List Nat)
    (password salt : List Nat) (iterations dkLen : Nat) : List Nat :=
  (pbkdf2_block prf password salt iterations 1).take dkLen

/-- The key construction of save_identity (src/generator.py lines 279-280):
PBKDF2HMAC(algorithm=SHA256, length=32, salt=b"salt_", iterations=100000)
applied to the encoded password, then base64.urlsafe_b64encode. -/
def derive_key (prf : List Nat → List Nat → List Nat) (password : String) : List Nat :=
  base64url (pbkdf2_hmac prf (strBytes password) (strBytes "salt_") 100000 32)

/-- Modelled from the spec: the Fernet symmetric scheme of the external
cryptography library (its decryption side has no counterpart under src/),
abstracted to its contract: decrypting a token with the key that produced it
returns the plaintext byte-for-byte; decrypting with any other key fails
(InvalidToken), deterministically. -/
structure FernetModel where
  encrypt : List Nat → List Nat → List Nat
  decrypt : List Nat → List Nat → Option (List Nat)
  decrypt_encrypt : ∀ key msg, decrypt key (encrypt key msg) = some msg
  decrypt_wrong_key : ∀ key key2 msg, key2 ≠ key → decrypt key2 (encrypt key msg) = none

/-- The encryption step of save_identity (src/generator.py lines 278-282):
the serialized payload `data` (the json.dumps/yaml.dump output) is encoded
and encrypted under the password-derived key. -/
def encrypt_payload (F : FernetModel) (prf : List Nat → List Nat → List Nat)
    (password : String) (data : String) : List Nat :=
  F.encrypt (derive_key prf password) (strBytes data)

/-- A concrete instance of the Fernet contract used to witness the round-trip
theorem: the token records the key (length-prefixed) and the message;
decryption checks the key. -/
def pairEncrypt (key msg : List Nat) : List Nat := key.length :: (key ++ msg)

def pairDecrypt (key token : List Nat) : Option (List Nat) :=
  match token with
  | [] => none
  | n :: rest => if n = key.length ∧ rest.take n = key then some (rest.drop n) else none

def pairFernet : FernetModel where
  encrypt := pairEncrypt
  decrypt := pairDecrypt
  decrypt_encrypt := by
    intro key msg
    simp [pairEncrypt, pairDecrypt, List.take_left, List.drop_left]
  decrypt_wrong_key := by
    intro key key2 msg h
    simp only [pairEncrypt, pairDecrypt, List.take_left]
    rw [if_neg]
    rintro ⟨-, h2⟩
    exact h h2.symm

/-- Failing input for the configuration-fallback claim: valid JSON for
first_names.json that lacks the required keys (only "female" present). -/
def badFirstNames : JVal := .jdict [("female", .jlist [.jstr "Mary"])]

/-- A well-formed streets table distinct from the default. -/
def goodStreets : JVal := .jdict [("US", .jlist [.jstr "Broadway"])]

/-- Failing input for C7: first_names.json present but missing required keys,
domains.json absent, every other file present and well-formed. -/
def c7Files : ConfigFiles where
  first_names := .content badFirstNames
  last_names := .content (.jdict [("US", .jlist [.jstr "Smith"])])
  domains := .missing
  streets := .content goodStreets
  addresses := .content (.jdict [("CA", .jlist [.jstr "San Jose"])])
  phone_formats := .content (.jdict [("US", .jstr "+1-###-###-####")])

/-- A generate-command argument set requesting encryption with csv format
(the witness input for C6). -/
def csvEncryptArgs : GenArgs where
  save := true
  saveLog := false
  country := "US"
  gender := "any"
  format := "csv"
  count := 1
  fields := none
  noPreview := false
  minAge := 18
  maxAge := 65
  useTempEmail := false
  manualEmail := none
  encrypt := some "pw"

/-- A record with the field shape produced by generate_identity (without the
optional email_token), used to exercise the CSV flattening. -/
def sampleIdentity : Identity :=
  [("first_name", .s "John"), ("last_name", .s "Smith"),
   ("full_name", .s "John Smith"), ("email", .s "john.smith7@example.com"),
   ("phone", .s "+1-000-000-0000"),
   ("address", .d [("street", "5 Main St"), ("city", "San Francisco"),
     ("state", "CA"), ("country", "US")]),
   ("username", .s "johnsmithabcd"), ("birthdate", .s "1990-01-01"),
   ("password", .s "x"), ("created", .s "2026-10-12 00:00:00")]

/-! From here on: the claim theorems, with their supporting lemmas. -/

theorem choice_mem (l : List String) (k : Nat) (h : l ≠ []) : choice l k ∈ l := by
  have hl : 0 < l.length := List.length_pos.mpr h
  have hk : k % l.length < l.length := Nat.mod_lt _ hl
  rw [choice, List.getD_eq_getElem?_getD, List.getElem?_eq_getElem hk]
  exact List.getElem_mem hk

theorem address_state_list_eq (country : String) :
    address_state_list country
      = (List.lookup country state_maps).getD ((List.lookup "US" state_maps).getD []) := by
  by_cases h1 : country = "US"
  · subst h1; rfl
  by_cases h2 : country = "in"
  · subst h2; rfl
  · have h : List.lookup country state_maps = none := by
      simp [state_maps, List.lookup, beq_eq_false_iff_ne.mpr h1,
        beq_eq_false_iff_ne.mpr h2]
    have hr : resolved_country country = "US" := by simp [resolved_country, h]
    rw [address_state_list, hr, h]
    rfl

theorem address_state_list_ne_nil (country : String) :
    address_state_list country ≠ [] := by
  by_cases h1 : country = "US"
  · subst h1; decide
  by_cases h2 : country = "in"
  · subst h2; decide
  · have h : List.lookup country state_maps = none := by
      simp [state_maps, List.lookup, beq_eq_false_iff_ne.mpr h1,
        beq_eq_false_iff_ne.mpr h2]
    have hr : resolved_country country = "US" := by simp [resolved_country, h]
    rw [address_state_list, hr]
    decide

theorem address_city_list_ne_nil (state : String) :
    address_city_list state ≠ [] := by
  by_cases h1 : state = "CA"
  · subst h1; decide
  by_cases h2 : state = "NY"
  · subst h2; decide
  by_cases h3 : state = "MH"
  · subst h3; decide
  · have h : List.lookup state default_addresses = none := by
      simp [default_addresses, List.lookup, beq_eq_false_iff_ne.mpr h1,
        beq_eq_false_iff_ne.mpr h2, beq_eq_false_iff_ne.mpr h3]
    rw [address_city_list, h]
    decide

/-- C3 as the claim words it: the state comes from the country's state list
(US's when the country is unknown) and the city comes from the city list of
the chosen state, i.e. the addresses-table entry keyed by that state. -/
def address_claim (o : Nat → Nat) (country : String) : Prop :=
  (generate_address o country).state ∈
    (List.lookup country state_maps).getD ((List.lookup "US" state_maps).getD []) ∧
  ∃ cities, List.lookup (generate_address o country).state default_addresses
      = some cities ∧ (generate_address o country).city ∈ cities

/-- C3 fails on the code: with country US the state draw can pick TX, and the
addresses table has no entry for TX, so the city (drawn from the CA fallback
list) is not an element of any city list of the chosen state. -/
theorem c3_counterexample : ¬ address_claim (fun _ => 2) "US" := by
  intro h
  obtain ⟨-, cities, hc, -⟩ := h
  rw [show (generate_address (fun _ => 2) "US").state = "TX" from rfl] at hc
  rw [show List.lookup "TX" default_addresses = none from rfl] at hc
  exact Option.noConfusion hc

/-- C3 amended: for every country and every random draw, the state is an
element of that country's state list (US's when the country is unknown) and
the city is an element of the addresses-table entry for the chosen state
when that state has one, and of the default state CA's city list otherwise
(address_city_list bundles exactly this fallback). -/
theorem c3_generate_address_state_city (o : Nat → Nat) (country : String) :
    (generate_address o country).state ∈
      (List.lookup country state_maps).getD ((List.lookup "US" state_maps).getD []) ∧
    (generate_address o country).city ∈
      address_city_list (generate_address o country).state := by
  constructor
  · rw [← address_state_list_eq]
    exact choice_mem _ _ (address_state_list_ne_nil country)
  · exact choice_mem _ _ (address_city_list_ne_nil _)

/-- C8: for age bounds 0 ≤ min_age ≤ max_age ≤ 120 and any current year and
random draw, the generated birthdate has
current_year - max_age ≤ year ≤ current_year - min_age, month in 1..12 and
day in 1..28. -/
theorem c8_generate_birthdate_bounds (current_year min_age max_age : Int)
    (o : Nat → Nat) (h0 : 0 ≤ min_age) (h1 : min_age ≤ max_age)
    (h2 : max_age ≤ 120) :
    current_year - max_age ≤ (generate_birthdate current_year min_age max_age o).1 ∧
    (generate_birthdate current_year min_age max_age o).1 ≤ current_year - min_age ∧
    1 ≤ (generate_birthdate current_year min_age max_age o).2.1 ∧
    (generate_birthdate current_year min_age max_age o).2.1 ≤ 12 ∧
    1 ≤ (generate_birthdate current_year min_age max_age o).2.2 ∧
    (generate_birthdate current_year min_age max_age o).2.2 ≤ 28 := by
  simp only [generate_birthdate, randbelow]
  have hy : (o 0) % (current_year - min_age - (current_year - max_age) + 1).toNat
      < (current_year - min_age - (current_year - max_age) + 1).toNat :=
    Nat.mod_lt _ (by omega)
  have hm : (o 1) % 12 < 12 := Nat.mod_lt _ (by omega)
  have hd : (o 2) % 28 < 28 := Nat.mod_lt _ (by omega)
  refine ⟨?_, ?_, ?_, ?_, ?_, ?_⟩ <;> omega

theorem c8_generate_birthdate_bounds_witness :
    (0 : Int) ≤ 18 ∧ (18 : Int) ≤ 65 ∧ (65 : Int) ≤ 120 ∧
    ((2026 : Int) - 65 ≤ (generate_birthdate 2026 18 65 (fun i => i)).1 ∧
     (generate_birthdate 2026 18 65 (fun i => i)).1 ≤ (2026 : Int) - 18 ∧
     1 ≤ (generate_birthdate 2026 18 65 (fun i => i)).2.1 ∧
     (generate_birthdate 2026 18 65 (fun i => i)).2.1 ≤ 12 ∧
     1 ≤ (generate_birthdate 2026 18 65 (fun i => i)).2.2 ∧
     (generate_birthdate 2026 18 65 (fun i => i)).2.2 ≤ 28) :=
  ⟨by decide, by decide, by decide,
   c8_generate_birthdate_bounds 2026 18 65 (fun i => i)
     (by decide) (by decide) (by decide)⟩

/-- C9 as the claim words it: the address is the lowercased names joined by a
dot, then a 3-digit random number, then @ and a configured domain. -/
def email_claim (domains : List String) (addr first_name last_name : String) : Prop :=
  ∃ s d, s.length = 3 ∧ (∀ c ∈ s.toList, c.isDigit) ∧ d ∈ domains ∧
    addr = str_lower first_name ++ "." ++ str_lower last_name ++ s ++ "@" ++ d

/-- C9 fails on the code: randbelow(1000) is interpolated unpadded, so a draw
below 100 contributes fewer than 3 digits.  With draw 7 the output is
john.smith7@example.com, which has no decomposition with a 3-digit random
part (a length count over the two configured domains rules both out). -/
theorem c9_counterexample :
    generate_email default_domains (fun i => if i = 1 then 7 else 0) "John" "Smith"
      = "john.smith7@example.com" ∧
    ¬ email_claim default_domains "john.smith7@example.com" "John" "Smith" := by
  constructor
  · rfl
  · rintro ⟨s, d, hs, -, hd, heq⟩
    have hlen := congrArg String.length heq
    simp only [String.length_append] at hlen
    rw [show ("john.smith7@example.com").length = 23 from rfl,
      show (str_lower "John").length = 4 from rfl,
      show (str_lower "Smith").length = 5 from rfl,
      show (".").length = 1 from rfl, show ("@").length = 1 from rfl, hs] at hlen
    have hd2 : d = "example.com" ∨ d = "test.org" := by
      simpa [default_domains] using hd
    rcases hd2 with rfl | rfl
    · rw [show ("example.com").length = 11 from rfl] at hlen; omega
    · rw [show ("test.org").length = 8 from rfl] at hlen; omega

/-- C9 amended: the address is the lowercased first name, a dot, the
lowercased last name, the decimal digits of a random number below 1000
(unpadded, so 1 to 3 digits), then @ and a domain drawn from the configured
domain list (the default list, which is all-lowercase). -/
theorem c9_generate_email_format (o : Nat → Nat) (first_name last_name : String) :
    ∃ n d, n < 1000 ∧ d ∈ default_domains ∧
      generate_email default_domains o first_name last_name
        = str_lower first_name ++ "." ++ str_lower last_name ++ toString n ++ "@" ++ d := by
  refine ⟨randbelow 1000 (o 1), choice default_domains (o 0), ?_, ?_, rfl⟩
  · exact Nat.mod_lt _ (by omega)
  · exact choice_mem _ _ (by simp [default_domains])

theorem temp_email_all_fail (oracle : Nat → MailAttempt)
    (h : ∀ i, oracle i = .netFail) :
    generate_temp_email oracle = ⟨none, none, [1, 2], 3⟩ := by
  simp [generate_temp_email, temp_email_loop, h 0, h 1, h 2]

theorem temp_email_attempts_le (oracle : Nat → MailAttempt) :
    (generate_temp_email oracle).attempts ≤ 3 := by
  rcases h0 : oracle 0 with ⟨e0, t0⟩ | _ | _ <;>
  rcases h1 : oracle 1 with ⟨e1, t1⟩ | _ | _ <;>
  rcases h2 : oracle 2 with ⟨e2, t2⟩ | _ | _ <;>
  simp [generate_temp_email, temp_email_loop, h0, h1, h2]

theorem temp_email_sleeps_eq (oracle : Nat → MailAttempt) :
    (generate_temp_email oracle).sleeps
      = (List.range ((generate_temp_email oracle).attempts - 1)).map (fun i => 2 ^ i) := by
  rcases h0 : oracle 0 with ⟨e0, t0⟩ | _ | _ <;>
  rcases h1 : oracle 1 with ⟨e1, t1⟩ | _ | _ <;>
  rcases h2 : oracle 2 with ⟨e2, t2⟩ | _ | _ <;>
  simp [generate_temp_email, temp_email_loop, h0, h1, h2, List.range_succ]

/-- C1: the provisioning loop starts at most 3 attempts; the sleeps performed
are exactly 2^attempt for each attempt that failed and was retried (every
non-final attempt), so a run whose 3 attempts all fail with a network error
sleeps 1s then 2s, performs no sleep after the final attempt, and returns
the (None, None) sentinel; generate_identity then falls back to the
generated firstname.lastname email with no token. -/
theorem c1_generate_temp_email_retry (oracle : Nat → MailAttempt) :
    (generate_temp_email oracle).attempts ≤ 3 ∧
    (generate_temp_email oracle).sleeps
      = (List.range ((generate_temp_email oracle).attempts - 1)).map (fun i => 2 ^ i) ∧
    ((∀ i, oracle i = .netFail) →
      generate_temp_email oracle = ⟨none, none, [1, 2], 3⟩) ∧
    (∀ (domains : List String) (o : Nat → Nat) (first_name last_name : String),
      (∀ i, oracle i = .netFail) →
      identity_email none true oracle domains o first_name last_name
        = (generate_email domains o first_name last_name, none)) := by
  refine ⟨temp_email_attempts_le oracle, temp_email_sleeps_eq oracle,
    temp_email_all_fail oracle, ?_⟩
  intro domains o first_name last_name h
  simp [identity_email, strTruthy, temp_email_all_fail oracle h]

theorem c1_generate_temp_email_retry_witness :
    (∀ i : Nat, (fun _ => MailAttempt.netFail) i = MailAttempt.netFail) ∧
    generate_temp_email (fun _ => .netFail) = ⟨none, none, [1, 2], 3⟩ ∧
    identity_email none true (fun _ => .netFail) default_domains (fun _ => 0)
        "John" "Smith"
      = (generate_email default_domains (fun _ => 0) "John" "Smith", none) :=
  ⟨fun _ => rfl,
   (c1_generate_temp_email_retry (fun _ => .netFail)).2.2.1 (fun _ => rfl),
   (c1_generate_temp_email_retry (fun _ => .netFail)).2.2.2 default_domains
     (fun _ => 0) "John" "Smith" (fun _ => rfl)⟩

theorem check_inbox_loop_none (trace : Nat → Option (List String)) :
    ∀ (fuel attempt : Nat),
      (∀ i msgs, attempt ≤ i → i < attempt + fuel → trace i = some msgs →
        scan_messages msgs = none) →
      check_inbox_loop trace fuel attempt = (none, none) := by
  intro fuel
  induction fuel with
  | zero => intro attempt h; rfl
  | succ n ih =>
    intro attempt h
    simp only [check_inbox_loop]
    rcases ht : trace attempt with _ | msgs
    · exact ih (attempt + 1) (fun i m hi1 hi2 hm => h i m (by omega) (by omega) hm)
    · show (match scan_messages msgs with
            | some r => r
            | none => check_inbox_loop trace n (attempt + 1)) = (none, none)
      rw [h attempt msgs (le_refl _) (by omega) ht]
      exact ih (attempt + 1) (fun i m hi1 hi2 hm => h i m (by omega) (by omega) hm)

/-- C2: within a poll attempt the message bodies are scanned in list order;
each body is searched with the code pattern before the link pattern, so a
body that matches the code pattern yields (code, None) even when it also
contains a URL; bodies matching neither are skipped; when no pattern matches
in any of the poll_attempts attempts (including failed fetches), check_inbox
returns the (None, None) sentinel.  The last conjunct is the spec scenario:
poll-attempts 2 over one message containing both a 6-digit number and a URL
yields the 6-digit code, not the URL. -/
theorem c2_check_inbox_code_priority :
    (∀ body rest c, code_search body = some c →
      scan_messages (body :: rest) = some (some c, none)) ∧
    (∀ body rest l, code_search body = none → link_search body = some l →
      scan_messages (body :: rest) = some (none, some l)) ∧
    (∀ body rest, code_search body = none → link_search body = none →
      scan_messages (body :: rest) = scan_messages rest) ∧
    (∀ (n : Nat) (trace : Nat → Option (List String)),
      (∀ i msgs, i < n → trace i = some msgs → scan_messages msgs = none) →
      check_inbox trace n = (none, none)) ∧
    check_inbox (fun _ => some ["Your code is 123456 or visit http://ex.com/verify now"]) 2
      = (some "123456", none) := by
  refine ⟨?_, ?_, ?_, ?_, ?_⟩
  · intro body rest c h
    simp [scan_messages, h]
  · intro body rest l h1 h2
    simp [scan_messages, h1, h2]
  · intro body rest h1 h2
    simp [scan_messages, h1, h2]
  · intro n trace h
    exact check_inbox_loop_none trace n 0 (fun i m h1 h2 hm => h i m (by omega) hm)
  · decide

theorem c2_check_inbox_code_priority_witness :
    scan_messages ["Your code is 123456 or visit http://ex.com/verify now"]
      = some (some "123456", none) ∧
    scan_messages ["visit http://ex.com/verify now"]
      = some (none, some "http://ex.com/verify") ∧
    scan_messages ["hello", "world"] = scan_messages ["world"] ∧
    check_inbox (fun _ => some ["hello"]) 1 = (none, none) :=
  ⟨c2_check_inbox_code_priority.1 _ [] _ (by decide),
   c2_check_inbox_code_priority.2.1 _ [] _ (by decide) (by decide),
   c2_check_inbox_code_priority.2.2.1 "hello" ["world"] (by decide) (by decide),
   c2_check_inbox_code_priority.2.2.2.1 1 _ (fun i msgs _ hm => by
     have h2 := Option.some.inj hm
     subst h2
     decide)⟩

/-- C5: the CSV header is exactly the key list of the flattened first record
of the batch; it does not depend on the later records, so keys present only
there add no columns; flattening turns a dict-valued field (the address)
into one key_subkey column per entry, in place; on a record shaped like
generate_identity's output this yields the four address_* columns. -/
theorem c5_csv_header_first_record (i : Identity) (rest rest2 : List Identity)
    (pre post : Identity) (street city state country : String) :
    save_identity_csv_header (i :: rest) = some ((flatten_identity i).map Prod.fst) ∧
    save_identity_csv_header (i :: rest) = save_identity_csv_header (i :: rest2) ∧
    (flatten_identity (pre ++ ("address", FieldValue.d
        [("street", street), ("city", city), ("state", state),
         ("country", country)]) :: post)).map Prod.fst
      = (flatten_identity pre).map Prod.fst
        ++ ["address_street", "address_city", "address_state", "address_country"]
        ++ (flatten_identity post).map Prod.fst ∧
    save_identity_csv_header [sampleIdentity]
      = some ["first_name", "last_name", "full_name", "email", "phone",
          "address_street", "address_city", "address_state", "address_country",
          "username", "birthdate", "password", "created"] := by
  refine ⟨rfl, rfl, ?_, by decide⟩
  simp [flatten_identity]

/-- C10: CSV export faults on an empty batch (the model's none, Python's
IndexError at flat_identities[0]) and succeeds on any non-empty batch; the
shell's validated count ≥ 1 makes the batch non-empty (its length is count),
so the faulting branch is unreachable from the validated path. -/
theorem c10_csv_empty_batch (ids : List Identity) (count : Nat)
    (mk : Nat → Identity) (h : ids ≠ []) (hc : 1 ≤ count) :
    save_identity_csv_header [] = none ∧
    (save_identity_csv_header ids).isSome = true ∧
    (generate_batch count mk).length = count ∧
    (save_identity_csv_header (generate_batch count mk)).isSome = true := by
  refine ⟨rfl, ?_, by simp [generate_batch], ?_⟩
  · rcases ids with _ | ⟨i, rest⟩
    · exact absurd rfl h
    · rfl
  · have hne : generate_batch count mk ≠ [] := by
      simp only [generate_batch, ne_eq, List.map_eq_nil_iff, List.range_eq_nil]
      omega
    rcases hgb : generate_batch count mk with _ | ⟨i, rest⟩
    · exact absurd hgb hne
    · rfl

theorem c10_csv_empty_batch_witness :
    ([sampleIdentity] ≠ []) ∧ (1 ≤ 1) ∧
    (save_identity_csv_header [] = none ∧
     (save_identity_csv_header [sampleIdentity]).isSome = true ∧
     (generate_batch 1 (fun _ => sampleIdentity)).length = 1 ∧
     (save_identity_csv_header (generate_batch 1 (fun _ => sampleIdentity))).isSome
       = true) :=
  ⟨by decide, by decide,
   c10_csv_empty_batch [sampleIdentity] 1 (fun _ => sampleIdentity)
     (by decide) (by decide)⟩

/-- C6: whenever the generate command carries a truthy encryption password
together with the csv format, validation ends in a rejected outcome (some
one-line diagnostic; the handler then continues the loop without calling
generate_batch_identities, so nothing is generated and no file is written);
when the earlier validations pass, the diagnostic is the encryption/CSV
one. -/
theorem c6_encrypt_csv_rejected (a : GenArgs) (henc : strTruthy a.encrypt = true)
    (hfmt : a.format = "csv") :
    (∃ msg, validate_generate a = .rejected msg) ∧
    (1 ≤ a.count → 0 ≤ a.minAge → a.minAge ≤ a.maxAge → a.maxAge ≤ 120 →
      ¬(a.useTempEmail = true ∧ strTruthy a.manualEmail = true) →
      validate_generate a
        = .rejected "Error: Encryption is not supported for CSV format") := by
  constructor
  · unfold validate_generate
    split_ifs with h1 h2 h3 h4
    · exact ⟨_, rfl⟩
    · exact ⟨_, rfl⟩
    · exact ⟨_, rfl⟩
    · exact ⟨_, rfl⟩
    · exact absurd ⟨henc, hfmt⟩ h4
    · exact absurd ⟨henc, hfmt⟩ h4
  · intro hc hmin hord hmax hboth
    unfold validate_generate
    rw [if_neg (by omega), if_neg (by omega), if_neg hboth, if_pos ⟨henc, hfmt⟩]

theorem c6_encrypt_csv_rejected_witness :
    (strTruthy csvEncryptArgs.encrypt = true) ∧ (csvEncryptArgs.format = "csv") ∧
    validate_generate csvEncryptArgs
      = .rejected "Error: Encryption is not supported for CSV format" :=
  ⟨rfl, rfl,
   (c6_encrypt_csv_rejected csvEncryptArgs rfl rfl).2 (by decide) (by decide)
     (by decide) (by decide) (by decide)⟩

/-- C7 is refuted by the code (a bug in the code, not the claim): on a
first_names.json that is valid JSON but fails the shape check, the warning
text announces a fallback, yet the table left in use is the malformed loaded
value (the shape check does not restore the default); and the tables are not
validated independently: a missing domains.json aborts the whole load block,
leaving streets at its default even though streets.json is present and
well-formed. -/
theorem c7_config_fallback_code_bug :
    firstNamesValid badFirstNames = false ∧
    firstNamesValid defaultTables.first_names = true ∧
    (init_tables c7Files).1.first_names = badFirstNames ∧
    "Warning: first_names.json missing required keys, using fallbacks."
      ∈ (init_tables c7Files).2 ∧
    "Warning: Configuration file domains.json not found, using fallbacks."
      ∈ (init_tables c7Files).2 ∧
    jIsDictOfLists goodStreets = true ∧
    (init_tables c7Files).1.streets = defaultTables.streets := by
  refine ⟨rfl, rfl, rfl, ?_, ?_, rfl, rfl⟩ <;> decide

/-- C4: with the Fernet contract and the PRF abstracted, encrypting the
serialized payload under a password and decrypting the result with the key
derived from the same password (derive_key: PBKDF2-HMAC over salt "salt_",
100000 iterations, 32-byte output, base64-url-encoded — a deterministic
function of the password) returns the serialized bytes unchanged, while
decrypting with any key other than the derived one — in particular the key
of any password deriving differently — deterministically fails. -/
theorem c4_encrypt_decrypt_roundtrip (F : FernetModel)
    (prf : List Nat → List Nat → List Nat) (password data : String) :
    F.decrypt (derive_key prf password) (encrypt_payload F prf password data)
      = some (strBytes data) ∧
    (∀ key2, key2 ≠ derive_key prf password →
      F.decrypt key2 (encrypt_payload F prf password data) = none) :=
  ⟨F.decrypt_encrypt _ _, fun _ h => F.decrypt_wrong_key _ _ _ h⟩

theorem c4_encrypt_decrypt_roundtrip_witness :
    (pairFernet.decrypt (derive_key (fun _ _ => []) "hunter2")
        (encrypt_payload pairFernet (fun _ _ => []) "hunter2" "[]")
      = some (strBytes "[]")) ∧
    (0 :: derive_key (fun _ _ => []) "hunter2" ≠ derive_key (fun _ _ => []) "hunter2") ∧
    (pairFernet.decrypt (0 :: derive_key (fun _ _ => []) "hunter2")
        (encrypt_payload pairFernet (fun _ _ => []) "hunter2" "[]") = none) :=
  ⟨(c4_encrypt_decrypt_roundtrip pairFernet (fun _ _ => []) "hunter2" "[]").1,
   List.cons_ne_self 0 _,
   (c4_encrypt_decrypt_roundtrip pairFernet (fun _ _ => []) "hunter2" "[]").2
     (0 :: derive_key (fun _ _ => []) "hunter2") (List.cons_ne_self 0 _)⟩

end TempIdentity
